import Mathlib

/-!
Shallow embedding of `googleplaces/__init__.py` (python-google-places 0.8.0).

Modelling conventions:
* Python exceptions become the inductive `PyError`; fallible code returns
  `Except PyError α`.  `GooglePlacesError` and `GooglePlacesAttributeError`
  are distinct constructors, as are the builtin `ValueError`, `KeyError`
  and `IndexError` that the code can raise through unguarded dict/list
  lookups.
* The transport function `_fetch_remote_json` performs network I/O and JSON
  parsing; it is modelled by passing the parsed JSON response for the
  endpoint directly into each operation, and operations additionally report
  the number of network fetches they performed (a `Nat`).
* JSON response bodies are typed records that follow the documented shape of
  each endpoint; a Python `dict.get(k)` on an optional key becomes an
  `Option` field, and a `d[k]` subscript on a possibly-missing key becomes a
  `match` whose `none` arm raises `PyError.keyError k`.
* Numeric JSON leaves (coordinates, ratings) are carried opaquely as
  strings: no claim depends on their arithmetic, only on their pass-through.
* Mutation of `self` in Python methods becomes explicit state passing: a
  method that mutates its object returns the updated object.
-/

/-- Python exception values raised by the module: the module's own
`GooglePlacesError` (API-level failure) and `GooglePlacesAttributeError`
(detail-only attribute read on a summary object), plus the builtin
`ValueError`, `KeyError` and `IndexError` that unguarded lookups raise. -/
inductive PyError where
  | googlePlacesError (msg : String)
  | googlePlacesAttributeError (msg : String)
  | valueError (msg : String)
  | keyError (key : String)
  | indexError
deriving Repr, DecidableEq

/-- True exactly for the `GooglePlacesAttributeError` kind. -/
def PyError.isAttributeUnavailable : PyError → Bool
  | .googlePlacesAttributeError _ => true
  | _ => false

/-- A lat/lng coordinate pair, the value of a `geometry.location` JSON
object.  Coordinates are floating-point in the source; they are carried
opaquely as strings here (used only for pass-through and formatting). -/
structure LatLng where
  lat : String
  lng : String
deriving Repr, DecidableEq

/-- One entry of a geocode response's `results` array: only its
`geometry.location` member is ever read by the code. -/
structure GeoResult where
  location : LatLng
deriving Repr, DecidableEq

/-- Parsed JSON body returned by the geocode endpoint. -/
structure GeocodeResponse where
  status : String
  results : List GeoResult
deriving Repr, DecidableEq

/-- Place data as found in a search response's `results` entries and in a
detail response's `result` object.  Keys that the code reads with
`dict.get` (hence may be absent) are `Option` fields; summary keys read
with `d[k]` subscripts are required fields, matching the documented
endpoint shape. -/
structure PlaceData where
  id : String
  reference : String
  name : String
  vicinity : String
  location : LatLng
  rating : Option String
  types : Option (List String)
  icon : Option String
  address_components : Option (List String)
  formatted_address : Option String
  formatted_phone_number : Option String
  international_phone_number : Option String
  website : Option String
  url : Option String
  html_attributions : Option (List String)
deriving Repr, DecidableEq

/-- Parsed JSON body returned by the place-detail endpoint.  The `result`
key is absent (`none`) when the API returns no place. -/
structure DetailResponse where
  status : String
  result : Option PlaceData
deriving Repr, DecidableEq

/-- Parsed JSON body returned by the place-search endpoint. -/
structure QueryResponse where
  status : String
  html_attributions : List String
  results : List PlaceData
deriving Repr, DecidableEq

/-- Request parameter map built by `GooglePlaces.query` and transmitted to
the search endpoint.  Optional keys mirror the dict keys the code inserts
conditionally; `key` and `sensor` are added by `_add_required_param_keys`. -/
structure RequestParams where
  location : String
  radius : Int
  types : Option String
  keyword : Option String
  name : Option String
  key : String
  sensor : String
deriving Repr, DecidableEq

/-- Embedding of Python `str(b).lower()` for a boolean `b`. -/
def pyBoolStr (b : Bool) : String :=
  if b then "true" else "false"

/-- Class attribute `GooglePlaces.GEOCODE_API_URL`. -/
def GEOCODE_API_URL : String :=
  "https://maps.googleapis.com/maps/api/geocode/json?"

/-- Class attribute `GooglePlaces.QUERY_API_URL`. -/
def QUERY_API_URL : String :=
  "https://maps.googleapis.com/maps/api/place/search/json?"

/-- Class attribute `GooglePlaces.DETAIL_API_URL`. -/
def DETAIL_API_URL : String :=
  "https://maps.googleapis.com/maps/api/place/details/json?"

/-- Class attribute `GooglePlaces.MAXIMUM_SEARCH_RADIUS`. -/
def MAXIMUM_SEARCH_RADIUS : Int := 50000

/-- Class attribute `GooglePlaces.RESPONSE_STATUS_OK`. -/
def RESPONSE_STATUS_OK : String := "OK"

/-- Class attribute `GooglePlaces.RESPONSE_STATUS_ZERO_RESULTS`. -/
def RESPONSE_STATUS_ZERO_RESULTS : String := "ZERO_RESULTS"

/-- Embedding of `_validate_response(url, response)`: raises
`GooglePlacesError` unless the response status is `OK` or `ZERO_RESULTS`.
The status field is passed directly since every response record has one. -/
def _validate_response (url : String) (status : String) : Except PyError Unit :=
  if status ≠ RESPONSE_STATUS_OK ∧ status ≠ RESPONSE_STATUS_ZERO_RESULTS then
    Except.error (PyError.googlePlacesError
      ("Request to URL " ++ url ++ " failed with response code: " ++ status))
  else
    Except.ok ()

/-- Embedding of `geocode_location(location, sensor)`.  The parsed geocode
response stands for the body fetched from `GEOCODE_API_URL`; after
validation, a `ZERO_RESULTS` status is escalated to `GooglePlacesError`,
otherwise `results[0]['geometry']['location']` is returned (an unguarded
index: an empty `results` list raises `IndexError`). -/
def geocode_location (geo_response : GeocodeResponse) (location : String)
    (sensor : Bool := false) : Except PyError LatLng :=
  match _validate_response GEOCODE_API_URL geo_response.status with
  | Except.error e => Except.error e
  | Except.ok _ =>
    if geo_response.status = RESPONSE_STATUS_ZERO_RESULTS then
      Except.error (PyError.googlePlacesError
        ("Lat/Lng for location '" ++ location ++ "' can't be determined."))
    else
      match geo_response.results with
      | [] => Except.error PyError.indexError
      | g :: _ => Except.ok g.location

/-- Embedding of `_get_place_details(reference, api_key, sensor)`.  The
parsed detail response stands for the body fetched from `DETAIL_API_URL`
with parameters `{reference, sensor, key}`; after validation the code
performs the unguarded subscript `detail_response['result']`, so an absent
`result` key raises `KeyError` (not a `GooglePlacesError`). -/
def _get_place_details (reference : String) (api_key : String) (sensor : Bool)
    (detail_response : DetailResponse) : Except PyError PlaceData :=
  match _validate_response DETAIL_API_URL detail_response.status with
  | Except.error e => Except.error e
  | Except.ok _ =>
    match detail_response.result with
    | none => Except.error (PyError.keyError "result")
    | some r => Except.ok r

/-- State of a `GooglePlaces` client instance.  `__init__` sets `_api_key`
and `_sensor = False` and `_request_params = None`; `query` later assigns
`_sensor`, `_lat_lng` and `_request_params` on the instance.  `_lat_lng`
does not exist until `query` first assigns it, modelled as `none`. -/
structure GooglePlaces where
  _api_key : String
  _sensor : Bool
  _lat_lng : Option LatLng
  _request_params : Option RequestParams
deriving Repr, DecidableEq

/-- Embedding of `GooglePlaces.__init__(api_key)`. -/
def GooglePlaces.init (api_key : String) : GooglePlaces :=
  { _api_key := api_key, _sensor := false, _lat_lng := none,
    _request_params := none }

/-- Property `GooglePlaces.api_key`. -/
def GooglePlaces.api_key (self : GooglePlaces) : String := self._api_key

/-- Property `GooglePlaces.sensor`. -/
def GooglePlaces.sensor (self : GooglePlaces) : Bool := self._sensor

/-- Property `GooglePlaces.request_params`. -/
def GooglePlaces.request_params (self : GooglePlaces) : Option RequestParams :=
  self._request_params

/-- State of a `Place` instance: the summary fields copied by `__init__`
from `place_data`, the back-reference to the owning client, and
`_details`, which is `None` (Summary state) unless the constructing data
carried an `address_components` key (Detailed state). -/
structure Place where
  _query_instance : GooglePlaces
  _id : String
  _reference : String
  _name : String
  _vicinity : String
  _geo_location : LatLng
  _rating : Option String
  _types : Option (List String)
  _icon : Option String
  _details : Option PlaceData
deriving Repr, DecidableEq

/-- Embedding of `Place.__init__(query_instance, place_data)`: required
summary keys are subscripted (the response shape guarantees them), the
optional ones use `dict.get`, and `_details` is set to the whole
`place_data` exactly when `place_data.get('address_components')` is not
`None`. -/
def Place.init (query_instance : GooglePlaces) (place_data : PlaceData) :
    Place :=
  { _query_instance := query_instance
  , _id := place_data.id
  , _reference := place_data.reference
  , _name := place_data.name
  , _vicinity := place_data.vicinity
  , _geo_location := place_data.location
  , _rating := place_data.rating
  , _types := place_data.types
  , _icon := place_data.icon
  , _details := if place_data.address_components = none then none
                else some place_data }

/-- Message of the `GooglePlacesAttributeError` raised by
`Place._validate_status`. -/
def attributeUnavailableMessage : String :=
  "The attribute requested is only available after an explicit call to get_details() is made."

/-- The exception value raised by `Place._validate_status`. -/
def attributeUnavailableError : PyError :=
  PyError.googlePlacesAttributeError attributeUnavailableMessage

/-- Embedding of `Place._validate_status`: raises
`GooglePlacesAttributeError` exactly when `_details is None`. -/
def Place._validate_status (self : Place) : Except PyError Unit :=
  match self._details with
  | none => Except.error attributeUnavailableError
  | some _ => Except.ok ()

/-- Property `Place.reference`. -/
def Place.reference (self : Place) : String := self._reference

/-- Property `Place.id`. -/
def Place.id (self : Place) : String := self._id

/-- Property `Place.name`. -/
def Place.name (self : Place) : String := self._name

/-- Property `Place.details`: `_validate_status` raises exactly when
`_details is None`; otherwise the stored detail payload is returned. -/
def Place.details (self : Place) : Except PyError PlaceData :=
  match self._details with
  | none => Except.error attributeUnavailableError
  | some d => Except.ok d

/-- Property `Place.formatted_address`: validates status, then
`self.details.get('formatted_address')`. -/
def Place.formatted_address (self : Place) : Except PyError (Option String) :=
  match self.details with
  | Except.error e => Except.error e
  | Except.ok d => Except.ok d.formatted_address

/-- Property `Place.local_phone_number`: validates status, then
`self.details.get('formatted_phone_number')`. -/
def Place.local_phone_number (self : Place) : Except PyError (Option String) :=
  match self.details with
  | Except.error e => Except.error e
  | Except.ok d => Except.ok d.formatted_phone_number

/-- Property `Place.international_phone_number`: validates status, then
`self.details.get('international_phone_number')`. -/
def Place.international_phone_number (self : Place) :
    Except PyError (Option String) :=
  match self.details with
  | Except.error e => Except.error e
  | Except.ok d => Except.ok d.international_phone_number

/-- Property `Place.website`: validates status, then
`self.details.get('website')`. -/
def Place.website (self : Place) : Except PyError (Option String) :=
  match self.details with
  | Except.error e => Except.error e
  | Except.ok d => Except.ok d.website

/-- Property `Place.url`: validates status, then
`self.details.get('url')`. -/
def Place.url (self : Place) : Except PyError (Option String) :=
  match self.details with
  | Except.error e => Except.error e
  | Except.ok d => Except.ok d.url

/-- Property `Place.html_attributions`: validates status, then
`self.details.get('html_attributions', [])`. -/
def Place.html_attributions (self : Place) :
    Except PyError (List String) :=
  match self.details with
  | Except.error e => Except.error e
  | Except.ok d => Except.ok (d.html_attributions.getD [])

/-- Property `Place.has_attributions`: returns `False` when `_details is
None` (no status validation), otherwise `len(self.html_attributions) > 0`
on the stored payload (validation cannot raise there since `_details` is
present). -/
def Place.has_attributions (self : Place) : Bool :=
  match self._details with
  | none => false
  | some d => decide (0 < (d.html_attributions.getD []).length)

/-- Embedding of `Place.get_details()`: a no-op when `_details` is already
set; otherwise performs one `_get_place_details` fetch with this place's
reference and the owning client's api key and sensor flag, storing the
payload on success.  Returns the outcome together with the number of
detail network calls performed (the fetch happens before validation, so a
failed attempt still counts one call and leaves `_details` unset). -/
def Place.get_details (detail_response : DetailResponse) (self : Place) :
    Except PyError Place × Nat :=
  match self._details with
  | some _ => (Except.ok self, 0)
  | none =>
    match _get_place_details self._reference self._query_instance._api_key
        self._query_instance._sensor detail_response with
    | Except.ok r => (Except.ok { self with _details := some r }, 1)
    | Except.error e => (Except.error e, 1)

/-- State of a `GooglePlacesSearchResult` instance. -/
structure GooglePlacesSearchResult where
  _places : List Place
  _html_attributions : List String
deriving Repr, DecidableEq

/-- Embedding of `GooglePlacesSearchResult.__init__(query_instance,
response)`: appends one `Place` per entry of `response['results']` in
order, and copies `response['html_attributions']`. -/
def GooglePlacesSearchResult.init (query_instance : GooglePlaces)
    (response : QueryResponse) : GooglePlacesSearchResult :=
  { _places := response.results.map (Place.init query_instance)
  , _html_attributions := response.html_attributions }

/-- Property `GooglePlacesSearchResult.places`. -/
def GooglePlacesSearchResult.places (self : GooglePlacesSearchResult) :
    List Place := self._places

/-- Property `GooglePlacesSearchResult.html_attributions`. -/
def GooglePlacesSearchResult.html_attributions
    (self : GooglePlacesSearchResult) : List String := self._html_attributions

/-- Property `GooglePlacesSearchResult.has_attributions`. -/
def GooglePlacesSearchResult.has_attributions
    (self : GooglePlacesSearchResult) : Bool :=
  decide (0 < self.html_attributions.length)

/-- The `ValueError` message raised by `GooglePlaces.query` when neither
`location` nor `lat_lng` is passed. -/
def locationRequiredMessage : String :=
  "One of location or lat_lng must be passed in."

/-- Embedding of `GooglePlaces.query(location, lat_lng, keyword, radius,
sensor, types, name)`.  The parsed geocode and query responses stand for
the bodies the two possible fetches would return.  Returns the client
state after the call (Python mutates `self` in place), the outcome, and
the number of network calls performed.  Mutation order follows the source:
the precondition check raises before any assignment; `_sensor` is
assigned before geocoding, `_lat_lng` after it, `_request_params` (with
the optional keys and the `key`/`sensor` pair from
`_add_required_param_keys`) before the search fetch and its validation.
The `getD` default in the geocode arm is unreachable: that arm runs only
when `lat_lng` is `none`, and the guard already raised when `location`
was also `none`. -/
def GooglePlaces.query (self : GooglePlaces) (geo_response : GeocodeResponse)
    (places_response : QueryResponse) (location : Option String)
    (lat_lng : Option LatLng) (keyword : Option String) (radius : Int)
    (sensor : Bool) (types : List String) (name : Option String) :
    GooglePlaces × Except PyError GooglePlacesSearchResult × Nat :=
  if location = none ∧ lat_lng = none then
    (self, Except.error (PyError.valueError locationRequiredMessage), 0)
  else
    let self1 : GooglePlaces := { self with _sensor := sensor }
    let geocoded : Except PyError LatLng × Nat :=
      match lat_lng with
      | some ll => (Except.ok ll, 0)
      | none => (geocode_location geo_response (location.getD ""), 1)
    match geocoded with
    | (Except.error e, n) => (self1, Except.error e, n)
    | (Except.ok ll, n) =>
      let self2 : GooglePlaces := { self1 with _lat_lng := some ll }
      let radius1 : Int :=
        if radius ≤ MAXIMUM_SEARCH_RADIUS then radius
        else MAXIMUM_SEARCH_RADIUS
      let lat_lng_str : String := ll.lat ++ "," ++ ll.lng
      let params : RequestParams :=
        { location := lat_lng_str
        , radius := radius1
        , types := if 0 < types.length then some (String.intercalate "|" types)
                   else none
        , keyword := keyword
        , name := name
        , key := self2._api_key
        , sensor := pyBoolStr self2._sensor }
      let self3 : GooglePlaces := { self2 with _request_params := some params }
      match _validate_response QUERY_API_URL places_response.status with
      | Except.error e => (self3, Except.error e, n + 1)
      | Except.ok _ =>
        (self3, Except.ok (GooglePlacesSearchResult.init self3 places_response),
         n + 1)

/-- Embedding of `GooglePlaces.get_place(reference, sensor)`: one
`_get_place_details` fetch, then a `Place` built from the detail payload
(which carries `address_components`, so the place is Detailed). -/
def GooglePlaces.get_place (self : GooglePlaces)
    (detail_response : DetailResponse) (reference : String) (sensor : Bool) :
    Except PyError Place :=
  match _get_place_details reference self.api_key sensor detail_response with
  | Except.error e => Except.error e
  | Except.ok place_details => Except.ok (Place.init self place_details)

/-- Helper: the `_details` slot set by the `Place` constructor. -/
theorem Place.init_details (q : GooglePlaces) (d : PlaceData) :
    (Place.init q d)._details
      = if d.address_components = none then none else some d := rfl

/-- Sample place data used by concrete witnesses: a summary-shaped entry,
lacking every detail-only key. -/
def wSummaryData : PlaceData :=
  { id := "a1", reference := "r1", name := "Cafe X", vicinity := "Main St"
  , location := { lat := "1.0", lng := "2.0" }
  , rating := none, types := none, icon := none
  , address_components := none, formatted_address := none
  , formatted_phone_number := none, international_phone_number := none
  , website := none, url := none, html_attributions := none }

/-- Sample detail payload used by concrete witnesses: carries
`address_components` and every detail-only key. -/
def wDetailData : PlaceData :=
  { id := "a1", reference := "r1", name := "Cafe X", vicinity := "Main St"
  , location := { lat := "1.0", lng := "2.0" }
  , rating := some "4.5", types := some ["cafe"], icon := some "icon.png"
  , address_components := some ["Main St"]
  , formatted_address := some "1 Main St, London"
  , formatted_phone_number := some "020 1234 5678"
  , international_phone_number := some "+44 20 1234 5678"
  , website := some "http://cafex.example"
  , url := some "http://maps.example/cafex"
  , html_attributions := some ["<a>X</a>"] }

/-- Sample detail-endpoint response with status OK carrying `wDetailData`. -/
def wDetailResponse : DetailResponse :=
  { status := "OK", result := some wDetailData }

/-- Sample client used by concrete witnesses. -/
def wClient : GooglePlaces := GooglePlaces.init "sample-key"

/-- C1: a Place built from data lacking `address_components` is in Summary
state, so every detail-only read (`details`, `formatted_address`,
`local_phone_number`, `international_phone_number`, `website`, `url`,
`html_attributions`) fails with the `GooglePlacesAttributeError` kind
(`attributeUnavailableError`, an AttributeUnavailable error, not an
API/transport `GooglePlacesError`); after `get_details` succeeds on that
same place with detail payload `r`, each of those reads succeeds and
returns the corresponding value of `r`. -/
theorem place_detail_fields_gated_until_get_details
    (q : GooglePlaces) (d : PlaceData) (resp : DetailResponse) (r : PlaceData)
    (hsum : d.address_components = none)
    (hstatus : resp.status = RESPONSE_STATUS_OK)
    (hres : resp.result = some r) :
    ((Place.init q d).details = Except.error attributeUnavailableError
      ∧ (Place.init q d).formatted_address
          = Except.error attributeUnavailableError
      ∧ (Place.init q d).local_phone_number
          = Except.error attributeUnavailableError
      ∧ (Place.init q d).international_phone_number
          = Except.error attributeUnavailableError
      ∧ (Place.init q d).website = Except.error attributeUnavailableError
      ∧ (Place.init q d).url = Except.error attributeUnavailableError
      ∧ (Place.init q d).html_attributions
          = Except.error attributeUnavailableError
      ∧ attributeUnavailableError.isAttributeUnavailable = true
      ∧ (PyError.googlePlacesError "x").isAttributeUnavailable = false)
    ∧ ∃ p' : Place,
        (Place.get_details resp (Place.init q d)).1 = Except.ok p'
        ∧ (Place.get_details resp (Place.init q d)).2 = 1
        ∧ p'.details = Except.ok r
        ∧ p'.formatted_address = Except.ok r.formatted_address
        ∧ p'.local_phone_number = Except.ok r.formatted_phone_number
        ∧ p'.international_phone_number
            = Except.ok r.international_phone_number
        ∧ p'.website = Except.ok r.website
        ∧ p'.url = Except.ok r.url
        ∧ p'.html_attributions = Except.ok (r.html_attributions.getD []) := by
  have hd : (Place.init q d)._details = none := by
    rw [Place.init_details, hsum]
    rfl
  constructor
  · refine ⟨?_, ?_, ?_, ?_, ?_, ?_, ?_, rfl, rfl⟩ <;>
      simp [Place.details, Place.formatted_address, Place.local_phone_number,
            Place.international_phone_number, Place.website, Place.url,
            Place.html_attributions, hd]
  · refine ⟨{ Place.init q d with _details := some r }, ?_, ?_, rfl, rfl, rfl,
      rfl, rfl, rfl, rfl⟩ <;>
      simp [Place.get_details, hd, _get_place_details, _validate_response,
            hstatus, hres, RESPONSE_STATUS_OK, RESPONSE_STATUS_ZERO_RESULTS]

/-- C1 witness: the theorem instantiated at concrete sample data. -/
theorem place_detail_fields_gated_until_get_details_witness :
    ((Place.init wClient wSummaryData).details
        = Except.error attributeUnavailableError
      ∧ (Place.init wClient wSummaryData).formatted_address
          = Except.error attributeUnavailableError
      ∧ (Place.init wClient wSummaryData).local_phone_number
          = Except.error attributeUnavailableError
      ∧ (Place.init wClient wSummaryData).international_phone_number
          = Except.error attributeUnavailableError
      ∧ (Place.init wClient wSummaryData).website
          = Except.error attributeUnavailableError
      ∧ (Place.init wClient wSummaryData).url
          = Except.error attributeUnavailableError
      ∧ (Place.init wClient wSummaryData).html_attributions
          = Except.error attributeUnavailableError
      ∧ attributeUnavailableError.isAttributeUnavailable = true
      ∧ (PyError.googlePlacesError "x").isAttributeUnavailable = false)
    ∧ ∃ p' : Place,
        (Place.get_details wDetailResponse
            (Place.init wClient wSummaryData)).1 = Except.ok p'
        ∧ (Place.get_details wDetailResponse
            (Place.init wClient wSummaryData)).2 = 1
        ∧ p'.details = Except.ok wDetailData
        ∧ p'.formatted_address = Except.ok wDetailData.formatted_address
        ∧ p'.local_phone_number
            = Except.ok wDetailData.formatted_phone_number
        ∧ p'.international_phone_number
            = Except.ok wDetailData.international_phone_number
        ∧ p'.website = Except.ok wDetailData.website
        ∧ p'.url = Except.ok wDetailData.url
        ∧ p'.html_attributions
            = Except.ok (wDetailData.html_attributions.getD []) :=
  place_detail_fields_gated_until_get_details wClient wSummaryData
    wDetailResponse wDetailData rfl rfl rfl

/-- Sample Summary-state place built from `wSummaryData`. -/
def wSummaryPlace : Place := Place.init wClient wSummaryData

/-- Sample Detailed-state place: built directly from detail-shaped data, as
`get_place` does. -/
def wDetailedPlace : Place := Place.init wClient wDetailData

/-- The place obtained by promoting `wSummaryPlace` with the payload of
`wDetailResponse`. -/
def wPromotedPlace : Place :=
  { wSummaryPlace with _details := some wDetailData }

/-- C2 counterexample: the claim says that for every Place two successive
`get_details` calls perform exactly one underlying detail network call.
On a Place that is already in Detailed state both calls are no-ops, so the
two calls together perform zero detail network calls, not one. -/
theorem get_details_twice_on_detailed_place_counterexample :
    Place.get_details wDetailResponse wDetailedPlace
      = (Except.ok wDetailedPlace, 0)
    ∧ (Place.get_details wDetailResponse wDetailedPlace).2
        + (Place.get_details wDetailResponse wDetailedPlace).2 ≠ 1 := by
  have h : Place.get_details wDetailResponse wDetailedPlace
      = (Except.ok wDetailedPlace, 0) := by rfl
  refine ⟨h, ?_⟩
  rw [h]
  decide

/-- C2 amended: when a `get_details` call succeeds, a second call is a
no-op — it returns the same place with the stored detail payload unchanged
and performs zero network calls — so the two calls together perform
exactly one underlying detail network call when the place started in
Summary state, and zero when it was already Detailed. -/
theorem get_details_idempotent (resp resp2 : DetailResponse) (p p' : Place)
    (h : (Place.get_details resp p).1 = Except.ok p') :
    Place.get_details resp2 p' = (Except.ok p', 0)
    ∧ (Place.get_details resp p).2 + (Place.get_details resp2 p').2
        = (if p._details = none then 1 else 0) := by
  have hd' : ∃ d, p'._details = some d := by
    cases hd : p._details with
    | some d =>
      have hp : p = p' := by
        simpa [Place.get_details, hd] using h
      exact ⟨d, by rw [← hp, hd]⟩
    | none =>
      cases hres : _get_place_details p._reference p._query_instance._api_key
          p._query_instance._sensor resp with
      | error e => simp [Place.get_details, hd, hres] at h
      | ok r =>
        have hp : { p with _details := some r } = p' := by
          simpa [Place.get_details, hd, hres] using h
        exact ⟨r, by rw [← hp]⟩
  obtain ⟨d, hd'⟩ := hd'
  have hsecond : Place.get_details resp2 p' = (Except.ok p', 0) := by
    simp [Place.get_details, hd']
  refine ⟨hsecond, ?_⟩
  rw [hsecond]
  cases hd : p._details with
  | some d2 => simp [Place.get_details, hd]
  | none =>
    cases hres : _get_place_details p._reference p._query_instance._api_key
        p._query_instance._sensor resp with
    | error e => simp [Place.get_details, hd, hres]
    | ok r => simp [Place.get_details, hd, hres]

/-- C2 witness: the amended theorem instantiated at a concrete Summary
place whose detail fetch succeeds — exactly one network call in total. -/
theorem get_details_idempotent_witness :
    (Place.get_details wDetailResponse wSummaryPlace).1
        = Except.ok wPromotedPlace
    ∧ Place.get_details wDetailResponse wPromotedPlace
        = (Except.ok wPromotedPlace, 0)
    ∧ (Place.get_details wDetailResponse wSummaryPlace).2
        + (Place.get_details wDetailResponse wPromotedPlace).2
        = (if wSummaryPlace._details = none then 1 else 0) :=
  ⟨rfl,
   (get_details_idempotent wDetailResponse wDetailResponse wSummaryPlace
      wPromotedPlace rfl).1,
   (get_details_idempotent wDetailResponse wDetailResponse wSummaryPlace
      wPromotedPlace rfl).2⟩

/-- Helper: `geocode_location` never raises `ValueError`: its failures are
`GooglePlacesError` (bad status or escalated zero-results) or `IndexError`
(empty results). -/
theorem geocode_location_ne_valueError (geo_response : GeocodeResponse)
    (location : String) (m : String) :
    geocode_location geo_response location
      ≠ Except.error (PyError.valueError m) := by
  intro hcontra
  unfold geocode_location at hcontra
  split at hcontra
  · rename_i e heq
    unfold _validate_response at heq
    split at heq
    · rw [Except.error.injEq] at heq
      rw [Except.error.injEq] at hcontra
      rw [← heq] at hcontra
      exact PyError.noConfusion hcontra
    · exact Except.noConfusion heq
  · split at hcontra
    · rw [Except.error.injEq] at hcontra
      exact PyError.noConfusion hcontra
    · split at hcontra
      · rw [Except.error.injEq] at hcontra
        exact PyError.noConfusion hcontra
      · exact Except.noConfusion hcontra

/-- C3: `query` fails with `ValueError` (the InvalidArgument kind) if and
only if both `location` and `lat_lng` are omitted, and in that failing
case it is surfaced immediately: the returned client state equals the
input client (no state change) and zero network calls are performed. -/
theorem query_invalid_argument_iff_both_omitted (self : GooglePlaces)
    (geo_response : GeocodeResponse) (places_response : QueryResponse)
    (location : Option String) (lat_lng : Option LatLng)
    (keyword : Option String) (radius : Int) (sensor : Bool)
    (types : List String) (name : Option String) :
    ((∃ m, (GooglePlaces.query self geo_response places_response location
          lat_lng keyword radius sensor types name).2.1
        = Except.error (PyError.valueError m))
      ↔ (location = none ∧ lat_lng = none))
    ∧ (location = none ∧ lat_lng = none →
        GooglePlaces.query self geo_response places_response location lat_lng
            keyword radius sensor types name
          = (self, Except.error (PyError.valueError locationRequiredMessage),
             0)) := by
  by_cases hg : location = none ∧ lat_lng = none
  · have hq : GooglePlaces.query self geo_response places_response location
        lat_lng keyword radius sensor types name
        = (self, Except.error (PyError.valueError locationRequiredMessage),
           0) := by
      simp [GooglePlaces.query, hg]
    refine ⟨?_, fun _ => hq⟩
    rw [hq]
    exact ⟨fun _ => hg, fun _ => ⟨locationRequiredMessage, rfl⟩⟩
  · refine ⟨?_, fun h => absurd h hg⟩
    simp only [iff_iff_implies_and_implies]
    refine ⟨?_, fun h => absurd h hg⟩
    rintro ⟨m, hm⟩
    exfalso
    unfold GooglePlaces.query at hm
    rw [if_neg hg] at hm
    cases lat_lng with
    | some ll =>
      simp only [] at hm
      split at hm
      · rename_i e heq
        unfold _validate_response at heq
        split at heq
        · rw [Except.error.injEq] at heq
          rw [Except.error.injEq] at hm
          rw [← heq] at hm
          exact PyError.noConfusion hm
        · exact Except.noConfusion heq
      · exact Except.noConfusion hm
    | none =>
      simp only [] at hm
      cases hgeo : geocode_location geo_response (location.getD "") with
      | error e =>
        rw [hgeo] at hm
        simp only [] at hm
        rw [Except.error.injEq] at hm
        rw [hm] at hgeo
        exact geocode_location_ne_valueError geo_response (location.getD "") m
          hgeo
      | ok ll =>
        rw [hgeo] at hm
        simp only [] at hm
        split at hm
        · rename_i e heq
          unfold _validate_response at heq
          split at heq
          · rw [Except.error.injEq] at heq
            rw [Except.error.injEq] at hm
            rw [← heq] at hm
            exact PyError.noConfusion hm
          · exact Except.noConfusion heq
        · exact Except.noConfusion hm

/-- Sample search-endpoint response used by concrete witnesses. -/
def wQueryResponse : QueryResponse :=
  { status := "OK", html_attributions := ["<a>X</a>"]
  , results := [wSummaryData] }

/-- Sample geocode response used by concrete witnesses. -/
def wGeoResponse : GeocodeResponse :=
  { status := "OK"
  , results := [{ location := { lat := "1.0", lng := "2.0" } }] }

/-- C3 witness: the theorem instantiated at a concrete call that omits
both `location` and `lat_lng`. -/
theorem query_invalid_argument_iff_both_omitted_witness :
    ((∃ m, (GooglePlaces.query wClient wGeoResponse wQueryResponse none none
          none 3200 false [] none).2.1
        = Except.error (PyError.valueError m))
      ↔ ((none : Option String) = none ∧ (none : Option LatLng) = none))
    ∧ ((none : Option String) = none ∧ (none : Option LatLng) = none →
        GooglePlaces.query wClient wGeoResponse wQueryResponse none none none
            3200 false [] none
          = (wClient,
             Except.error (PyError.valueError locationRequiredMessage), 0)) :=
  query_invalid_argument_iff_both_omitted wClient wGeoResponse wQueryResponse
    none none none 3200 false [] none

/-- C4: for every radius value passed to `query` (with coordinates
supplied, so the call reaches the parameter build), the radius placed in
the transmitted request parameter map follows the source clamp: values
above `MAXIMUM_SEARCH_RADIUS = 50000` become exactly 50000, values at or
below pass through unchanged. -/
theorem query_radius_clamped (self : GooglePlaces)
    (geo_response : GeocodeResponse) (places_response : QueryResponse)
    (location : Option String) (ll : LatLng) (keyword : Option String)
    (radius : Int) (sensor : Bool) (types : List String)
    (name : Option String) :
    ∃ params : RequestParams,
      ((GooglePlaces.query self geo_response places_response location
          (some ll) keyword radius sensor types name).1)._request_params
        = some params
      ∧ params.radius = (if radius ≤ MAXIMUM_SEARCH_RADIUS then radius
                         else MAXIMUM_SEARCH_RADIUS)
      ∧ (radius > 50000 → params.radius = 50000)
      ∧ (radius ≤ 50000 → params.radius = radius) := by
  refine ⟨{ location := ll.lat ++ "," ++ ll.lng
          , radius := if radius ≤ MAXIMUM_SEARCH_RADIUS then radius
                      else MAXIMUM_SEARCH_RADIUS
          , types := if 0 < types.length
                     then some (String.intercalate "|" types) else none
          , keyword := keyword, name := name, key := self._api_key
          , sensor := pyBoolStr sensor }, ?_, rfl, ?_, ?_⟩
  · unfold GooglePlaces.query
    rw [if_neg (by simp)]
    split
    · rename_i ll2 heq
      rw [Option.some.injEq] at heq
      subst heq
      split <;> split <;> split <;> rfl
    · rename_i heq
      exact absurd heq (by simp)
  · intro h
    rw [if_neg (by simp only [MAXIMUM_SEARCH_RADIUS]; omega)]
    rfl
  · intro h
    rw [if_pos (by simp only [MAXIMUM_SEARCH_RADIUS]; omega)]

/-- C4 witness: the theorem at a concrete over-limit radius of 60000. -/
theorem query_radius_clamped_witness :
    ∃ params : RequestParams,
      ((GooglePlaces.query wClient wGeoResponse wQueryResponse none
          (some { lat := "1.0", lng := "2.0" }) none 60000 false []
          none).1)._request_params
        = some params
      ∧ params.radius = (if (60000 : Int) ≤ MAXIMUM_SEARCH_RADIUS
                         then 60000 else MAXIMUM_SEARCH_RADIUS)
      ∧ ((60000 : Int) > 50000 → params.radius = 50000)
      ∧ ((60000 : Int) ≤ 50000 → params.radius = 60000) :=
  query_radius_clamped wClient wGeoResponse wQueryResponse none
    { lat := "1.0", lng := "2.0" } none 60000 false [] none

/-- C5: `geocode_location` on a ZERO_RESULTS response fails with
`GooglePlacesError` whose message contains the input location string, and
on an OK response with a nonempty results array it returns the first
result's `geometry.location`. -/
theorem geocode_zero_results_fails_ok_returns_first
    (geo_response : GeocodeResponse) (location : String) (g : GeoResult)
    (rest : List GeoResult) :
    (geo_response.status = RESPONSE_STATUS_ZERO_RESULTS →
      geocode_location geo_response location
        = Except.error (PyError.googlePlacesError
            ("Lat/Lng for location '" ++ location
              ++ "' can't be determined."))
      ∧ ∃ pre post,
          "Lat/Lng for location '" ++ location ++ "' can't be determined."
            = pre ++ location ++ post)
    ∧ (geo_response.status = RESPONSE_STATUS_OK →
        geo_response.results = g :: rest →
        geocode_location geo_response location = Except.ok g.location) := by
  constructor
  · intro hz
    refine ⟨?_, "Lat/Lng for location '", "' can't be determined.", rfl⟩
    unfold geocode_location _validate_response
    rw [hz]
    rw [if_neg (by simp [RESPONSE_STATUS_ZERO_RESULTS, RESPONSE_STATUS_OK])]
    rw [if_pos rfl]
  · intro hok hres
    unfold geocode_location _validate_response
    rw [hok, hres]
    rw [if_neg (by simp [RESPONSE_STATUS_ZERO_RESULTS, RESPONSE_STATUS_OK])]
    rw [if_neg (by simp [RESPONSE_STATUS_ZERO_RESULTS, RESPONSE_STATUS_OK])]

/-- C5 witness: the theorem at the spec's concrete scenario — a
ZERO_RESULTS geocode response for the location string Nowhereville. -/
theorem geocode_zero_results_fails_ok_returns_first_witness :
    (({ status := "ZERO_RESULTS", results := [] }
          : GeocodeResponse).status = RESPONSE_STATUS_ZERO_RESULTS →
      geocode_location { status := "ZERO_RESULTS", results := [] }
          "Nowhereville"
        = Except.error (PyError.googlePlacesError
            ("Lat/Lng for location '" ++ "Nowhereville"
              ++ "' can't be determined."))
      ∧ ∃ pre post,
          "Lat/Lng for location '" ++ "Nowhereville"
              ++ "' can't be determined."
            = pre ++ "Nowhereville" ++ post)
    ∧ (({ status := "ZERO_RESULTS", results := [] }
          : GeocodeResponse).status = RESPONSE_STATUS_OK →
        ({ status := "ZERO_RESULTS", results := [] }
          : GeocodeResponse).results
            = ({ location := { lat := "1.0", lng := "2.0" } } : GeoResult)
              :: [] →
        geocode_location { status := "ZERO_RESULTS", results := [] }
            "Nowhereville"
          = Except.ok ({ location := { lat := "1.0", lng := "2.0" } }
              : GeoResult).location) :=
  geocode_zero_results_fails_ok_returns_first
    { status := "ZERO_RESULTS", results := [] } "Nowhereville"
    { location := { lat := "1.0", lng := "2.0" } } []

/-- Helper: the `Place` constructor yields a Summary-state place exactly
when the constructing data lacks `address_components`. -/
theorem Place.init_details_isNone (q : GooglePlaces) (r : PlaceData) :
    (Place.init q r)._details.isNone = r.address_components.isNone := by
  cases h : r.address_components <;> simp [Place.init, h]

/-- C6: a `GooglePlacesSearchResult` holds exactly one Place per entry of
the response's `results` array, in the same order (it is the ordered map
of the constructor over `results`, so lengths agree), its
`html_attributions` are copied verbatim, and when every entry lacks
`address_components` (the search-endpoint shape) every constructed Place
is in Summary state. -/
theorem search_result_one_place_per_entry (q : GooglePlaces)
    (response : QueryResponse) :
    (GooglePlacesSearchResult.init q response)._places
        = response.results.map (Place.init q)
    ∧ (GooglePlacesSearchResult.init q response)._places.length
        = response.results.length
    ∧ (GooglePlacesSearchResult.init q response)._html_attributions
        = response.html_attributions
    ∧ (response.results.all (fun r => r.address_components.isNone) = true →
        (GooglePlacesSearchResult.init q response)._places.all
            (fun p => p._details.isNone) = true) := by
  refine ⟨rfl, by simp [GooglePlacesSearchResult.init], rfl, ?_⟩
  intro h
  rw [List.all_eq_true] at h ⊢
  intro p hp
  rw [GooglePlacesSearchResult.init] at hp
  simp only [List.mem_map] at hp
  obtain ⟨r, hr, hinit⟩ := hp
  rw [← hinit, Place.init_details_isNone]
  exact h r hr

/-- C6 witness: the theorem at a concrete one-entry response. -/
theorem search_result_one_place_per_entry_witness :
    (GooglePlacesSearchResult.init wClient wQueryResponse)._places
        = wQueryResponse.results.map (Place.init wClient)
    ∧ (GooglePlacesSearchResult.init wClient wQueryResponse)._places.length
        = wQueryResponse.results.length
    ∧ (GooglePlacesSearchResult.init wClient
          wQueryResponse)._html_attributions
        = wQueryResponse.html_attributions
    ∧ (wQueryResponse.results.all (fun r => r.address_components.isNone)
          = true →
        (GooglePlacesSearchResult.init wClient wQueryResponse)._places.all
            (fun p => p._details.isNone) = true) :=
  search_result_one_place_per_entry wClient wQueryResponse

/-- C7: `has_attributions` is `false` for every Summary-state Place (and
being Bool-valued it raises nothing), while for every Detailed-state Place
with stored payload `pd` it equals `len(pd.get('html_attributions', []))
> 0`, a payload without the key counting as empty. -/
theorem has_attributions_graceful (q : GooglePlaces) (d : PlaceData)
    (p : Place) (pd : PlaceData)
    (hsum : d.address_components = none)
    (hp : p._details = some pd) :
    (Place.init q d).has_attributions = false
    ∧ p.has_attributions
        = decide (0 < (pd.html_attributions.getD []).length)
    ∧ (pd.html_attributions = none → p.has_attributions = false) := by
  refine ⟨?_, ?_, ?_⟩
  · simp [Place.has_attributions, Place.init, hsum]
  · simp [Place.has_attributions, hp]
  · intro hnone
    simp [Place.has_attributions, hp, hnone]

/-- C7 witness: the theorem at a concrete Summary place and a concrete
Detailed place carrying one attribution. -/
theorem has_attributions_graceful_witness :
    (Place.init wClient wSummaryData).has_attributions = false
    ∧ wDetailedPlace.has_attributions
        = decide (0 < (wDetailData.html_attributions.getD []).length)
    ∧ (wDetailData.html_attributions = none →
        wDetailedPlace.has_attributions = false) :=
  has_attributions_graceful wClient wSummaryData wDetailedPlace wDetailData
    rfl rfl

/-- True exactly for the `GooglePlacesError` kind. -/
def PyError.isGooglePlacesError : PyError → Bool
  | .googlePlacesError _ => true
  | _ => false

/-- Helper: evaluation of `query` when coordinates are supplied — the
geocoder is skipped, the client is updated with the sensor flag, the
coordinates and the built parameter map, and exactly one fetch happens. -/
theorem query_eval_with_lat_lng (self : GooglePlaces)
    (geo_response : GeocodeResponse) (places_response : QueryResponse)
    (location : Option String) (ll : LatLng) (keyword : Option String)
    (radius : Int) (sensor : Bool) (types : List String)
    (name : Option String) :
    GooglePlaces.query self geo_response places_response location (some ll)
        keyword radius sensor types name
      = (let self3 : GooglePlaces :=
           { self with
               _sensor := sensor,
               _lat_lng := some ll,
               _request_params := some
                 { location := ll.lat ++ "," ++ ll.lng,
                   radius := if radius ≤ MAXIMUM_SEARCH_RADIUS then radius
                             else MAXIMUM_SEARCH_RADIUS,
                   types := if 0 < types.length
                            then some (String.intercalate "|" types)
                            else none,
                   keyword := keyword, name := name,
                   key := self._api_key, sensor := pyBoolStr sensor } }
         match _validate_response QUERY_API_URL places_response.status with
         | Except.error e => (self3, Except.error e, 1)
         | Except.ok _ =>
           (self3,
            Except.ok (GooglePlacesSearchResult.init self3 places_response),
            1)) := by
  unfold GooglePlaces.query
  rw [if_neg (by simp)]

/-- Concrete coordinates used by counterexamples and witnesses. -/
def wLatLng : LatLng := { lat := "1.0", lng := "2.0" }

/-- The parameter map built by the concrete both-supplied query call. -/
def wParams : RequestParams :=
  { location := "1.0,2.0", radius := 3200, types := none, keyword := none
  , name := none, key := "sample-key", sensor := "false" }

/-- The client state after the concrete both-supplied query call. -/
def wPostClient : GooglePlaces :=
  { _api_key := "sample-key", _sensor := false, _lat_lng := some wLatLng
  , _request_params := some wParams }

/-- C8 counterexample: the claim says a call supplying both `location` and
`lat_lng` fails with InvalidArgument.  On a concrete call supplying both,
`query` instead succeeds — it uses `lat_lng`, skips the geocoder, makes
exactly one network call and returns the search result. -/
theorem query_both_supplied_counterexample :
    (GooglePlaces.query wClient wGeoResponse wQueryResponse
        (some "London, England") (some wLatLng) none 3200 false [] none).2.1
      = Except.ok (GooglePlacesSearchResult.init wPostClient wQueryResponse)
    ∧ (GooglePlaces.query wClient wGeoResponse wQueryResponse
        (some "London, England") (some wLatLng) none 3200 false [] none).2.2
      = 1 := by
  constructor <;> rfl

/-- C8 amended: `query` requires at least one (not exactly one) of
`location` and `lat_lng`: it fails with InvalidArgument only when both are
omitted.  When both are supplied no InvalidArgument is raised: `lat_lng`
takes precedence, the geocoder is skipped, exactly one network call is
made, and the stored coordinates are the supplied `lat_lng`. -/
theorem query_both_supplied_uses_lat_lng (self : GooglePlaces)
    (geo_response : GeocodeResponse) (places_response : QueryResponse)
    (loc : String) (ll : LatLng) (keyword : Option String) (radius : Int)
    (sensor : Bool) (types : List String) (name : Option String)
    (m : String) :
    (GooglePlaces.query self geo_response places_response (some loc)
        (some ll) keyword radius sensor types name).2.1
      ≠ Except.error (PyError.valueError m)
    ∧ (GooglePlaces.query self geo_response places_response (some loc)
        (some ll) keyword radius sensor types name).2.2 = 1
    ∧ ((GooglePlaces.query self geo_response places_response (some loc)
        (some ll) keyword radius sensor types name).1)._lat_lng
      = some ll := by
  rw [query_eval_with_lat_lng]
  refine ⟨?_, ?_, ?_⟩
  · intro hcontra
    cases hv : _validate_response QUERY_API_URL places_response.status with
    | error e =>
      rw [hv] at hcontra
      simp only [Except.error.injEq] at hcontra
      subst hcontra
      unfold _validate_response at hv
      split at hv
      · rw [Except.error.injEq] at hv
        exact PyError.noConfusion hv
      · exact Except.noConfusion hv
    | ok u =>
      rw [hv] at hcontra
      exact Except.noConfusion hcontra
  · cases hv : _validate_response QUERY_API_URL places_response.status with
    | error e => rfl
    | ok u => rfl
  · cases hv : _validate_response QUERY_API_URL places_response.status with
    | error e => rfl
    | ok u => rfl

/-- C8 amended witness: the amended theorem at the concrete both-supplied
call. -/
theorem query_both_supplied_uses_lat_lng_witness :
    (GooglePlaces.query wClient wGeoResponse wQueryResponse
        (some "London, England") (some wLatLng) none 3200 false []
        none).2.1
      ≠ Except.error (PyError.valueError locationRequiredMessage)
    ∧ (GooglePlaces.query wClient wGeoResponse wQueryResponse
        (some "London, England") (some wLatLng) none 3200 false []
        none).2.2 = 1
    ∧ ((GooglePlaces.query wClient wGeoResponse wQueryResponse
        (some "London, England") (some wLatLng) none 3200 false []
        none).1)._lat_lng = some wLatLng :=
  query_both_supplied_uses_lat_lng wClient wGeoResponse wQueryResponse
    "London, England" wLatLng none 3200 false [] none
    locationRequiredMessage

/-- C9 counterexample: the claim says every `query` call leaves the
client's stored state unchanged apart from the immutable API key and
default sensor flag, with parameter maps transient locals.  A concrete
successful call mutates the client: it overwrites `_sensor` with the
call's sensor argument and stores the request parameter map on the
instance. -/
theorem query_mutates_client_counterexample :
    ((GooglePlaces.query wClient wGeoResponse wQueryResponse none
        (some wLatLng) none 3200 true [] none).1)._sensor = true
    ∧ wClient._sensor = false
    ∧ ((GooglePlaces.query wClient wGeoResponse wQueryResponse none
        (some wLatLng) none 3200 true [] none).1)._request_params ≠ none
    ∧ wClient._request_params = none := by
  refine ⟨rfl, rfl, ?_, rfl⟩
  intro hcontra
  exact Option.noConfusion hcontra

/-- C9 amended: a `query` call that reaches the parameter build mutates
the client's stored state: `_api_key` alone is unchanged, while `_sensor`
is overwritten with the call's sensor argument (the value the `sensor`
property — which a previously returned Place's `get_details` and
`checkin` read from the shared client — then reports), the resolved
coordinates are stored in `_lat_lng`, and the request parameter map is
stored in `_request_params` rather than being a transient local. -/
theorem query_mutates_client (self : GooglePlaces)
    (geo_response : GeocodeResponse) (places_response : QueryResponse)
    (location : Option String) (ll : LatLng) (keyword : Option String)
    (radius : Int) (sensor : Bool) (types : List String)
    (name : Option String) :
    ((GooglePlaces.query self geo_response places_response location
        (some ll) keyword radius sensor types name).1)._api_key
      = self._api_key
    ∧ ((GooglePlaces.query self geo_response places_response location
        (some ll) keyword radius sensor types name).1)._sensor = sensor
    ∧ GooglePlaces.sensor ((GooglePlaces.query self geo_response
        places_response location (some ll) keyword radius sensor types
        name).1) = sensor
    ∧ ((GooglePlaces.query self geo_response places_response location
        (some ll) keyword radius sensor types name).1)._lat_lng = some ll
    ∧ ((GooglePlaces.query self geo_response places_response location
        (some ll) keyword radius sensor types name).1)._request_params
      ≠ none := by
  rw [query_eval_with_lat_lng]
  refine ⟨?_, ?_, ?_, ?_, ?_⟩ <;>
    cases hv : _validate_response QUERY_API_URL places_response.status
  case error e => rfl
  case ok u => rfl
  case error e => rfl
  case ok u => rfl
  case error e => rfl
  case ok u => rfl
  case error e => rfl
  case ok u => rfl
  case error e => exact fun hcontra => Option.noConfusion hcontra
  case ok u => exact fun hcontra => Option.noConfusion hcontra

/-- C9 amended witness: the amended theorem at a concrete call with
sensor set to true on a client whose sensor default is false. -/
theorem query_mutates_client_witness :
    ((GooglePlaces.query wClient wGeoResponse wQueryResponse none
        (some wLatLng) none 3200 true [] none).1)._api_key
      = wClient._api_key
    ∧ ((GooglePlaces.query wClient wGeoResponse wQueryResponse none
        (some wLatLng) none 3200 true [] none).1)._sensor = true
    ∧ GooglePlaces.sensor ((GooglePlaces.query wClient wGeoResponse
        wQueryResponse none (some wLatLng) none 3200 true []
        none).1) = true
    ∧ ((GooglePlaces.query wClient wGeoResponse wQueryResponse none
        (some wLatLng) none 3200 true [] none).1)._lat_lng = some wLatLng
    ∧ ((GooglePlaces.query wClient wGeoResponse wQueryResponse none
        (some wLatLng) none 3200 true [] none).1)._request_params
      ≠ none :=
  query_mutates_client wClient wGeoResponse wQueryResponse none wLatLng
    none 3200 true [] none

/-- Sample ZERO_RESULTS detail-endpoint response lacking the `result`
key. -/
def wZeroDetailResponse : DetailResponse :=
  { status := "ZERO_RESULTS", result := none }

/-- C10: for a detail-endpoint response with status ZERO_RESULTS the
validator accepts the response, but the detail path then performs the
unguarded `result` subscript: when the key is absent,
`_get_place_details` — hence `get_place` and a Summary place's
`get_details` — raises `KeyError`, an ordinary key-lookup failure that is
neither a `GooglePlacesError` nor the AttributeUnavailable kind; with
status OK and `result` present the path is total and returns the
payload. -/
theorem detail_zero_results_unguarded_result_lookup (self : GooglePlaces)
    (resp resp2 : DetailResponse) (r : PlaceData) (reference : String)
    (api_key : String) (sensor : Bool) (p : Place)
    (hz : resp.status = RESPONSE_STATUS_ZERO_RESULTS)
    (hmiss : resp.result = none)
    (hsum : p._details = none)
    (hok : resp2.status = RESPONSE_STATUS_OK)
    (hr : resp2.result = some r) :
    _validate_response DETAIL_API_URL resp.status = Except.ok ()
    ∧ _get_place_details reference api_key sensor resp
        = Except.error (PyError.keyError "result")
    ∧ GooglePlaces.get_place self resp reference sensor
        = Except.error (PyError.keyError "result")
    ∧ (Place.get_details resp p).1
        = Except.error (PyError.keyError "result")
    ∧ (PyError.keyError "result").isGooglePlacesError = false
    ∧ (PyError.keyError "result").isAttributeUnavailable = false
    ∧ _get_place_details reference api_key sensor resp2 = Except.ok r := by
  have hval : _validate_response DETAIL_API_URL resp.status
      = Except.ok () := by
    rw [hz]
    unfold _validate_response
    rw [if_neg (by simp [RESPONSE_STATUS_ZERO_RESULTS, RESPONSE_STATUS_OK])]
  have hval2 : _validate_response DETAIL_API_URL resp2.status
      = Except.ok () := by
    rw [hok]
    unfold _validate_response
    rw [if_neg (by simp [RESPONSE_STATUS_ZERO_RESULTS, RESPONSE_STATUS_OK])]
  have hg : ∀ (ref k : String) (s : Bool), _get_place_details ref k s resp
      = Except.error (PyError.keyError "result") := by
    intro ref k s
    unfold _get_place_details
    rw [hval, hmiss]
  have hg2 : _get_place_details reference api_key sensor resp2
      = Except.ok r := by
    unfold _get_place_details
    rw [hval2, hr]
  refine ⟨hval, hg reference api_key sensor, ?_, ?_, rfl, rfl, hg2⟩
  · unfold GooglePlaces.get_place
    rw [hg reference self.api_key sensor]
  · unfold Place.get_details
    rw [hsum]
    rw [hg p._reference p._query_instance._api_key p._query_instance._sensor]

/-- C10 witness: the theorem at a concrete ZERO_RESULTS detail response
with no `result` key, a concrete Summary place, and a concrete OK detail
response. -/
theorem detail_zero_results_unguarded_result_lookup_witness :
    _validate_response DETAIL_API_URL wZeroDetailResponse.status
        = Except.ok ()
    ∧ _get_place_details "r1" "sample-key" false wZeroDetailResponse
        = Except.error (PyError.keyError "result")
    ∧ GooglePlaces.get_place wClient wZeroDetailResponse "r1" false
        = Except.error (PyError.keyError "result")
    ∧ (Place.get_details wZeroDetailResponse wSummaryPlace).1
        = Except.error (PyError.keyError "result")
    ∧ (PyError.keyError "result").isGooglePlacesError = false
    ∧ (PyError.keyError "result").isAttributeUnavailable = false
    ∧ _get_place_details "r1" "sample-key" false wDetailResponse
        = Except.ok wDetailData :=
  detail_zero_results_unguarded_result_lookup wClient wZeroDetailResponse
    wDetailResponse wDetailData "r1" "sample-key" false wSummaryPlace
    rfl rfl rfl rfl rfl
